import Mathlib

/-!
# Verification of the Multi-Signal Market Stage & Scoring Engine

Shallow embedding of the scoring core of this repository:

* `implementations/StockAI/analysis2.py`
  (`EnhancedWaveTransitionAnalyzerV3`: `_calculate_technical_indicators`,
  `_classify_wave_stage`, `_calculate_fundamental_score`, `analyze_stock`,
  `analyze_all_stocks`), and
* `implementations/StockAI/all_institutional_trend_data.py`
  (`calculate_trend_metrics`, `calculate_supply_demand_score`).

Modelling conventions:

* Python/pandas floats are modelled as exact rationals (`ℚ`).
* pandas `NaN` for fields that can genuinely be `NaN` in this pipeline
  (`position_52w` before 20 bars, `price_change_Nd` before N+1 bars) is
  modelled as `Option ℚ` with `none` = `NaN`; any comparison against `none`
  is false, exactly as every comparison against `NaN` is false in
  pandas/numpy.  Moving averages computed with `min_periods=1` over a
  non-empty series are never `NaN`, so those fields are plain `ℚ` and the
  defensive `pd.isna(ma50) or pd.isna(ma200)` branch of
  `_classify_wave_stage` reduces to the `== 0` checks.
* Series are chronologically ordered lists (the Python code sorts by date
  before computing anything).
-/

/-- Mean of `f` over the pandas rolling window ending at index `i` with
nominal width `w` and `min_periods=1`: the indices `max 0 (i+1-w) .. i`
(always non-empty). -/
def windowMean (f : ℕ → ℚ) (w i : ℕ) : ℚ :=
  let idxs := List.range' (i + 1 - w) (i + 1 - (i + 1 - w))
  (idxs.map f).sum / (idxs.length : ℚ)

/-- The latest derived-indicator row consumed by `_classify_wave_stage` and
`_calculate_fundamental_score`.  `position52w` and `priceChange20d` are the
`NaN`-able fields (rolling `min_periods=20` resp. `pct_change(20)`). -/
structure IndicatorRow where
  close : ℚ
  ma20 : ℚ
  ma50 : ℚ
  ma200 : ℚ
  rsi : ℚ
  position52w : Option ℚ
  volumeRatio : ℚ
  priceChange20d : Option ℚ
  maAligned : Bool
  deriving Repr, DecidableEq

/-- pandas-style `lo <= x <= hi` where `x` may be `NaN` (`none`):
false on `NaN`. -/
def inRangeOpt (lo : ℚ) (x : Option ℚ) (hi : ℚ) : Prop :=
  match x with
  | some v => lo ≤ v ∧ v ≤ hi
  | none => False

instance (lo hi : ℚ) (x : Option ℚ) : Decidable (inRangeOpt lo x hi) :=
  match x with
  | some v => inferInstanceAs (Decidable (lo ≤ v ∧ v ≤ hi))
  | none => inferInstanceAs (Decidable False)

/-- pandas-style `x >= c` where `x` may be `NaN`: false on `NaN`. -/
def geOpt (x : Option ℚ) (c : ℚ) : Prop :=
  match x with
  | some v => c ≤ v
  | none => False

instance (c : ℚ) (x : Option ℚ) : Decidable (geOpt x c) :=
  match x with
  | some v => inferInstanceAs (Decidable (c ≤ v))
  | none => inferInstanceAs (Decidable False)

/-- pandas-style `x < c` where `x` may be `NaN`: false on `NaN`. -/
def ltOpt (x : Option ℚ) (c : ℚ) : Prop :=
  match x with
  | some v => v < c
  | none => False

instance (c : ℚ) (x : Option ℚ) : Decidable (ltOpt x c) :=
  match x with
  | some v => inferInstanceAs (Decidable (v < c))
  | none => inferInstanceAs (Decidable False)

/-- pandas-style `abs(x) < c` where `x` may be `NaN`: false on `NaN`. -/
def absLtOpt (x : Option ℚ) (c : ℚ) : Prop :=
  match x with
  | some v => |v| < c
  | none => False

instance (c : ℚ) (x : Option ℚ) : Decidable (absLtOpt x c) :=
  match x with
  | some v => inferInstanceAs (Decidable (|v| < c))
  | none => inferInstanceAs (Decidable False)

/-- `EnhancedWaveTransitionAnalyzerV3._classify_wave_stage`
(analysis2.py, lines 123-197): guard for absent/zero MA50/MA200, then the
fixed cascade of seven guarded rules, first match wins, default Neutral. -/
def classify_wave_stage (r : IndicatorRow) : ℚ × String :=
  if r.ma50 = 0 ∨ r.ma200 = 0 then (50, "Insufficient Data")
  else if r.maAligned = true ∧ inRangeOpt 60 r.position52w 90 ∧
      (13 : ℚ)/10 ≤ r.volumeRatio ∧ 55 ≤ r.rsi ∧ r.rsi ≤ 75 ∧
      geOpt r.priceChange20d (1/10) then
    (90, "Stage 2 Mid (Strong Uptrend)")
  else if r.ma20 > r.ma50 ∧ inRangeOpt 40 r.position52w 75 ∧
      r.close ≥ r.ma20 * (98/100) ∧ (12 : ℚ)/10 ≤ r.volumeRatio then
    (80, "Stage 2 Early (Early Uptrend)")
  else if (0 < r.ma50 ∧ |r.ma20 - r.ma50| / r.ma50 < 3/100) ∧
      inRangeOpt 25 r.position52w 60 ∧ 45 ≤ r.rsi ∧ r.rsi ≤ 65 then
    (70, "Stage 1-2 Transition")
  else if r.ma20 > r.ma50 ∧ inRangeOpt 30 r.position52w 70 ∧
      (8 : ℚ)/10 ≤ r.volumeRatio then
    (60, "General Uptrend")
  else if r.ma20 < r.ma50 ∧ r.ma50 < r.ma200 ∧ r.rsi < 40 then
    (30, "Stage 4 (Decline)")
  else if geOpt r.position52w 75 ∧ r.volumeRatio < 8/10 then
    (40, "Stage 3 (Distribution)")
  else if ltOpt r.position52w 40 ∧ absLtOpt r.priceChange20d (5/100) then
    (50, "Stage 1 (Base)")
  else (50, "Neutral")

/-- `EnhancedWaveTransitionAnalyzerV3._calculate_fundamental_score`
(analysis2.py, lines 199-222): base 10, volume-ratio and RSI bonuses,
clamped at 20.  Absent `volume_ratio`/`rsi` keys default to 1 resp. 50 in
the source; here the fields are always present, and those default values
are particular instances of the universally quantified row. -/
def calculate_fundamental_score (r : IndicatorRow) : ℚ :=
  let score : ℚ := 10
  let score := score +
    (if (15 : ℚ)/10 ≤ r.volumeRatio then 5
     else if (12 : ℚ)/10 ≤ r.volumeRatio then 3 else 0)
  let score := score +
    (if 50 ≤ r.rsi ∧ r.rsi ≤ 70 then 5
     else if 40 ≤ r.rsi ∧ r.rsi < 50 then 2 else 0)
  min 20 score

/-- C1: a row meeting simultaneously every Stage-90 condition (rule 1) and
every Stage-60 condition (rule 4), with the classifier's stated
precondition of defined non-zero MA50/MA200, is classified 90 "Stage 2 Mid
(Strong Uptrend)" (the source's Strong-Uptrend label) and never 60: the
first matching rule of the cascade wins. -/
theorem stage90_beats_stage60 (r : IndicatorRow) (p : ℚ)
    (h50 : r.ma50 ≠ 0) (h200 : r.ma200 ≠ 0)
    (hal : r.maAligned = true)
    (hpos : r.position52w = some p)
    (hp60 : 60 ≤ p) (hp90 : p ≤ 90)
    (hvr13 : (13 : ℚ)/10 ≤ r.volumeRatio)
    (hrsi55 : 55 ≤ r.rsi) (hrsi75 : r.rsi ≤ 75)
    (hchg : geOpt r.priceChange20d (1/10))
    (hma : r.ma20 > r.ma50)
    (hp30 : 30 ≤ p) (hp70 : p ≤ 70)
    (hvr08 : (8 : ℚ)/10 ≤ r.volumeRatio) :
    classify_wave_stage r = (90, "Stage 2 Mid (Strong Uptrend)") ∧
      (classify_wave_stage r).1 ≠ 60 := by
  have hguard : ¬ (r.ma50 = 0 ∨ r.ma200 = 0) := by
    rintro (h | h) <;> [exact h50 h; exact h200 h]
  have hrule1 : r.maAligned = true ∧ inRangeOpt 60 r.position52w 90 ∧
      (13 : ℚ)/10 ≤ r.volumeRatio ∧ 55 ≤ r.rsi ∧ r.rsi ≤ 75 ∧
      geOpt r.priceChange20d (1/10) := by
    refine ⟨hal, ?_, hvr13, hrsi55, hrsi75, hchg⟩
    rw [hpos]
    exact ⟨hp60, hp90⟩
  have : classify_wave_stage r = (90, "Stage 2 Mid (Strong Uptrend)") := by
    unfold classify_wave_stage
    rw [if_neg hguard, if_pos hrule1]
  exact ⟨this, by rw [this]; norm_num⟩

/-- Concrete row satisfying both the rule-1 and the rule-4 conditions. -/
def sampleRow : IndicatorRow :=
  { close := 100, ma20 := 110, ma50 := 100, ma200 := 90, rsi := 60,
    position52w := some 65, volumeRatio := 14/10,
    priceChange20d := some (12/100), maAligned := true }

/-- Witness for C1 at a concrete row meeting both rule sets. -/
theorem stage90_beats_stage60_witness :
    classify_wave_stage sampleRow = (90, "Stage 2 Mid (Strong Uptrend)") ∧
      (classify_wave_stage sampleRow).1 ≠ 60 :=
  stage90_beats_stage60 sampleRow 65 (by norm_num [sampleRow])
    (by norm_num [sampleRow]) (by norm_num [sampleRow])
    (by norm_num [sampleRow]) (by norm_num) (by norm_num)
    (by norm_num [sampleRow]) (by norm_num [sampleRow])
    (by norm_num [sampleRow]) (by norm_num [sampleRow, geOpt])
    (by norm_num [sampleRow]) (by norm_num) (by norm_num)
    (by norm_num [sampleRow])

/-- C9: the fundamental-proxy score is always in `[10, 20]`; the base score
10 is a lower bound for every row (so scores below 10 inside the spec's
stated `[0, 20]` range are unreachable). -/
theorem fundamental_score_bounds (r : IndicatorRow) :
    10 ≤ calculate_fundamental_score r ∧ calculate_fundamental_score r ≤ 20 := by
  unfold calculate_fundamental_score
  split_ifs <;> constructor <;> norm_num

/-!
## Per-bar technical indicators
(`_calculate_technical_indicators`, analysis2.py lines 72-121)

`delta = close.diff()`; `gain = delta.where(delta > 0, 0)` and
`loss = -delta.where(delta < 0, 0)` are rolling-averaged over 14 bars with
`min_periods=1`.  At index 0 `diff` is `NaN`, and `NaN > 0` / `NaN < 0` are
false, so both the gain and the loss term at index 0 are 0.
-/

/-- Positive part of the close-to-close delta at index `j` (0 at index 0). -/
def gainAt (c : List ℚ) (j : ℕ) : ℚ :=
  if j = 0 then 0 else max (c.getD j 0 - c.getD (j - 1) 0) 0

/-- Negative part (as a non-negative number) of the delta at index `j`. -/
def lossAt (c : List ℚ) (j : ℕ) : ℚ :=
  if j = 0 then 0 else max (c.getD (j - 1) 0 - c.getD j 0) 0

/-- Trailing 14-bar average gain (expanding window before 14 bars). -/
def avgGain (c : List ℚ) (i : ℕ) : ℚ := windowMean (gainAt c) 14 i

/-- Trailing 14-bar average loss (expanding window before 14 bars). -/
def avgLoss (c : List ℚ) (i : ℕ) : ℚ := windowMean (lossAt c) 14 i

/-- 14-day RSI of bar `i`: `rs = gain / loss.replace(0, nan)`;
`rsi = 100 - 100/(1+rs)`; `fillna(50)`.  A zero average loss makes `rs`
`NaN` and the final `fillna` turns the row into exactly 50. -/
def rsiAt (c : List ℚ) (i : ℕ) : ℚ :=
  if avgLoss c i = 0 then 50
  else 100 - 100 / (1 + avgGain c i / avgLoss c i)

/-- 20-bar volume moving average (`min_periods=1`). -/
def volMA20 (v : List ℚ) (i : ℕ) : ℚ := windowMean (fun j => v.getD j 0) 20 i

/-- The divisor of the volume ratio: `volume_ma20.replace(0, 1)`. -/
def volumeDivisorAt (v : List ℚ) (i : ℕ) : ℚ :=
  if volMA20 v i = 0 then 1 else volMA20 v i

/-- Volume ratio of bar `i`: `volume / volume_ma20.replace(0, 1)`. -/
def volumeRatioAt (v : List ℚ) (i : ℕ) : ℚ :=
  v.getD i 0 / volumeDivisorAt v i

/-- A rolling mean of a pointwise non-negative series is non-negative. -/
theorem windowMean_nonneg (f : ℕ → ℚ) (hf : ∀ j, 0 ≤ f j) (w i : ℕ) :
    0 ≤ windowMean f w i := by
  unfold windowMean
  apply div_nonneg
  · apply List.sum_nonneg
    intro x hx
    obtain ⟨j, _, rfl⟩ := List.mem_map.mp hx
    exact hf j
  · exact_mod_cast Nat.zero_le _

theorem gainAt_nonneg (c : List ℚ) : ∀ j, 0 ≤ gainAt c j := by
  intro j
  unfold gainAt
  split_ifs
  · exact le_refl 0
  · exact le_max_right _ _

theorem lossAt_nonneg (c : List ℚ) : ∀ j, 0 ≤ lossAt c j := by
  intro j
  unfold lossAt
  split_ifs
  · exact le_refl 0
  · exact le_max_right _ _

/-- C6: for every price history and every bar of it the 14-day RSI lies in
`[0, 100]`, and on any bar whose trailing-14 average loss is exactly 0 the
RSI equals exactly 50. -/
theorem rsi_in_range (closes : List ℚ) (i : ℕ) (hi : i < closes.length) :
    0 ≤ rsiAt closes i ∧ rsiAt closes i ≤ 100 ∧
      (avgLoss closes i = 0 → rsiAt closes i = 50) := by
  have hg : 0 ≤ avgGain closes i := windowMean_nonneg _ (gainAt_nonneg closes) 14 i
  have hl : 0 ≤ avgLoss closes i := windowMean_nonneg _ (lossAt_nonneg closes) 14 i
  unfold rsiAt
  by_cases h0 : avgLoss closes i = 0
  · rw [if_pos h0]
    exact ⟨by norm_num, by norm_num, fun h => rfl⟩
  · rw [if_neg h0]
    have hrs : 0 ≤ avgGain closes i / avgLoss closes i := div_nonneg hg hl
    refine ⟨?_, ?_, fun h => absurd h h0⟩
    · have h1 : 100 / (1 + avgGain closes i / avgLoss closes i) ≤ 100 :=
        div_le_self (by norm_num) (by linarith)
      linarith
    · have h2 : 0 ≤ 100 / (1 + avgGain closes i / avgLoss closes i) :=
        div_nonneg (by norm_num) (by linarith)
      linarith

/-- Witness for C6: a two-bar rising history has zero average loss at its
last bar, and its RSI there is exactly 50 (inside `[0, 100]`). -/
theorem rsi_in_range_witness :
    avgLoss [(1 : ℚ), 2] 1 = 0 ∧ rsiAt [(1 : ℚ), 2] 1 = 50 :=
  ⟨by norm_num [avgLoss, windowMean, lossAt, List.range'],
    (rsi_in_range [(1 : ℚ), 2] 1 (by norm_num)).2.2
      (by norm_num [avgLoss, windowMean, lossAt, List.range'])⟩

/-- C8: on every bar the volume-ratio divisor (`volume_ma20.replace(0,1)`)
is non-zero — the ratio is a defined rational, never a division-by-zero
fault — and whenever the 20-bar volume moving average is 0 the ratio
equals the raw volume. -/
theorem volume_ratio_defined (v : List ℚ) (i : ℕ) (hi : i < v.length) :
    volumeDivisorAt v i ≠ 0 ∧
      (volMA20 v i = 0 → volumeRatioAt v i = v.getD i 0) := by
  constructor
  · unfold volumeDivisorAt
    split_ifs with h
    · norm_num
    · exact h
  · intro h
    unfold volumeRatioAt volumeDivisorAt
    rw [if_pos h, div_one]

/-- Witness for C8: a single all-zero-volume bar has volume MA 0, divisor
1, and ratio equal to the raw volume (0). -/
theorem volume_ratio_defined_witness :
    volumeDivisorAt [(0 : ℚ)] 0 ≠ 0 ∧ volMA20 [(0 : ℚ)] 0 = 0 ∧
      volumeRatioAt [(0 : ℚ)] 0 = 0 :=
  ⟨(volume_ratio_defined [(0 : ℚ)] 0 (by norm_num)).1,
    by norm_num [volMA20, windowMean, List.range'],
    (volume_ratio_defined [(0 : ℚ)] 0 (by norm_num)).2
      (by norm_num [volMA20, windowMean, List.range'])⟩

/-!
## Per-stock analysis pipeline
(`analyze_stock` / `analyze_all_stocks`, analysis2.py lines 224-353)
-/

/-- One OHLCV bar (`daily_prices` row for one instrument, one day). -/
structure PriceBar where
  openPrice : ℚ
  high : ℚ
  low : ℚ
  close : ℚ
  volume : ℚ
  deriving Repr, DecidableEq

/-- The index window used by a pandas trailing rolling of width `w` ending
at index `i`. -/
def windowIdxs (w i : ℕ) : List ℕ :=
  List.range' (i + 1 - w) (i + 1 - (i + 1 - w))

/-- Maximum of a list of rationals (0 on the empty list, which the callers
never pass). -/
def listMax : List ℚ → ℚ
  | [] => 0
  | x :: xs => xs.foldl max x

/-- Minimum of a list of rationals (0 on the empty list). -/
def listMin : List ℚ → ℚ
  | [] => 0
  | x :: xs => xs.foldl min x

/-- Close-price moving average over `w` bars, `min_periods=1`. -/
def maAt (c : List ℚ) (w i : ℕ) : ℚ := windowMean (fun j => c.getD j 0) w i

/-- 52-week percentile position at index `i`: rolling 252-bar max of highs
and min of lows with `min_periods=20` (so `NaN`, i.e. `none`, before 20
bars); `(close - low52) / range.replace(0, 1) * 100`. -/
def position52wAt (highs lows c : List ℚ) (i : ℕ) : Option ℚ :=
  if 20 ≤ i + 1 then
    let hi52 := listMax ((windowIdxs 252 i).map (fun j => highs.getD j 0))
    let lo52 := listMin ((windowIdxs 252 i).map (fun j => lows.getD j 0))
    let range := hi52 - lo52
    some ((c.getD i 0 - lo52) / (if range = 0 then 1 else range) * 100)
  else none

/-- pandas `pct_change(n)` at index `i`: `NaN` (`none`) until `n+1` bars
exist.  (A zero base close would give `inf` in pandas; `ℚ` division by zero
gives 0.  No claim here touches that corner — prices are positive.) -/
def priceChangeAt (c : List ℚ) (n i : ℕ) : Option ℚ :=
  if n ≤ i then some ((c.getD i 0 - c.getD (i - n) 0) / c.getD (i - n) 0)
  else none

/-- The derived indicator row of the most recent bar
(`stock_data.iloc[-1]` after `_calculate_technical_indicators`). -/
def latest_row (h : List PriceBar) : IndicatorRow :=
  let c := h.map (fun b => b.close)
  let L := h.length - 1
  { close := c.getD L 0
    ma20 := maAt c 20 L
    ma50 := maAt c 50 L
    ma200 := maAt c 200 L
    rsi := rsiAt c L
    position52w := position52wAt (h.map (fun b => b.high)) (h.map (fun b => b.low)) c L
    volumeRatio := volumeRatioAt (h.map (fun b => b.volume)) L
    priceChange20d := priceChangeAt c 20 L
    maAligned := decide (maAt c 20 L > maAt c 50 L ∧ maAt c 50 L > maAt c 200 L) }

/-- Result record of `analyze_stock`.  The insufficient-data sentinel dict
of the source has no fundamental/supply-demand keys, modelled as `none`. -/
structure StockResult where
  ticker : String
  waveScore : ℚ
  waveStage : String
  fundamentalScore : Option ℚ
  supplyDemandScore : Option ℚ
  supplyDemandStage : Option String
  finalScore : ℚ
  grade : String
  deriving Repr, DecidableEq

/-- The grade ladder of `analyze_stock` (analysis2.py lines 270-281).
The source labels are Korean; their leading letters are the spec's grade
letters S/A/B/C/D/F. -/
def investment_grade (s : ℚ) : String :=
  if 85 ≤ s then "S급 (즉시 매수)"
  else if 75 ≤ s then "A급 (적극 매수)"
  else if 65 ≤ s then "B급 (매수 고려)"
  else if 55 ≤ s then "C급 (중립)"
  else if 45 ≤ s then "D급 (매도 고려)"
  else "F급 (회피)"

/-- `analyze_stock` for one instrument: `h` is that instrument's price
history (chronological), `flow` the optional row of the institutional
table (`supply_demand_score`, `supply_demand_stage`), absent when the
ticker has no flow data (defaults 0 / "N/A", lines 256-263). -/
def analyze_stock (t : String) (h : List PriceBar)
    (flow : Option (ℚ × String)) : StockResult :=
  if h.length < 20 then
    { ticker := t, waveScore := 0, waveStage := "Insufficient Data",
      fundamentalScore := none, supplyDemandScore := none,
      supplyDemandStage := none, finalScore := 0, grade := "분석 불가" }
  else
    let latest := latest_row h
    let ws := (classify_wave_stage latest).1
    let fund := calculate_fundamental_score latest
    let sd := (flow.getD (0, "N/A")).1
    let final := ws * (6/10) + fund * 1 + sd * (2/10)
    { ticker := t, waveScore := ws,
      waveStage := (classify_wave_stage latest).2,
      fundamentalScore := some fund, supplyDemandScore := some sd,
      supplyDemandStage := some (flow.getD (0, "N/A")).2,
      finalScore := final, grade := investment_grade final }

/-- Ascending comparison on final score, the sort key of
`analyze_all_stocks`. -/
def byScoreAsc (a b : StockResult) : Prop := a.finalScore ≤ b.finalScore

instance : DecidableRel byScoreAsc :=
  fun a b => inferInstanceAs (Decidable (a.finalScore ≤ b.finalScore))

instance : IsTotal StockResult byScoreAsc :=
  ⟨fun a b => le_total a.finalScore b.finalScore⟩

instance : IsTrans StockResult byScoreAsc :=
  ⟨fun _ _ _ hab hbc => le_trans hab hbc⟩

/-- `analyze_all_stocks`: per-ticker analysis in input iteration order,
then `sort_values('final_investment_score', ascending=False)`.  pandas
implements a descending sort as an ascending argsort whose indexer is then
reversed; the default `kind='quicksort'` is unstable, modelled here
stability-optimistically by a stable ascending sort followed by reversal
(on up to 16 elements numpy introsort is insertion sort, i.e. stable, so
on small inputs the model agrees with the source exactly). -/
def analyze_all_stocks
    (univ : List (String × List PriceBar × Option (ℚ × String))) :
    List StockResult :=
  (List.insertionSort byScoreAsc
    (univ.map (fun u => analyze_stock u.1 u.2.1 u.2.2))).reverse

/-- The grade ladder agrees with the spec thresholds
85/75/65/55/45 (helper shared by the aggregation theorems). -/
theorem investment_grade_spec (s : ℚ) :
    (85 ≤ s → investment_grade s = "S급 (즉시 매수)") ∧
    (75 ≤ s → s < 85 → investment_grade s = "A급 (적극 매수)") ∧
    (65 ≤ s → s < 75 → investment_grade s = "B급 (매수 고려)") ∧
    (55 ≤ s → s < 65 → investment_grade s = "C급 (중립)") ∧
    (45 ≤ s → s < 55 → investment_grade s = "D급 (매도 고려)") ∧
    (s < 45 → investment_grade s = "F급 (회피)") := by
  unfold investment_grade
  refine ⟨fun h1 => ?_, fun h1 h2 => ?_, fun h1 h2 => ?_, fun h1 h2 => ?_,
    fun h1 h2 => ?_, fun h1 => ?_⟩
  · rw [if_pos h1]
  · rw [if_neg (not_le.mpr h2), if_pos h1]
  · rw [if_neg (not_le.mpr (by linarith)), if_neg (not_le.mpr h2), if_pos h1]
  · rw [if_neg (not_le.mpr (by linarith)), if_neg (not_le.mpr (by linarith)),
      if_neg (not_le.mpr h2), if_pos h1]
  · rw [if_neg (not_le.mpr (by linarith)), if_neg (not_le.mpr (by linarith)),
      if_neg (not_le.mpr (by linarith)), if_neg (not_le.mpr h2), if_pos h1]
  · rw [if_neg (not_le.mpr (by linarith)), if_neg (not_le.mpr (by linarith)),
      if_neg (not_le.mpr (by linarith)), if_neg (not_le.mpr (by linarith)),
      if_neg (not_le.mpr h1)]

/-- C3: with fewer than 20 bars (the empty history included),
`analyze_stock` short-circuits to the sentinel result — wave score 0,
stage "Insufficient Data", final score 0, grade "분석 불가" (the source's
Unscorable marker) — with no indicator row and no stage classification
(the fundamental/flow fields of the sentinel do not exist). -/
theorem insufficient_history_sentinel (t : String) (h : List PriceBar)
    (flow : Option (ℚ × String)) (hlen : h.length < 20) :
    analyze_stock t h flow =
      { ticker := t, waveScore := 0, waveStage := "Insufficient Data",
        fundamentalScore := none, supplyDemandScore := none,
        supplyDemandStage := none, finalScore := 0, grade := "분석 불가" } := by
  unfold analyze_stock
  rw [if_pos hlen]

/-- Witness for C3 at the empty history. -/
theorem insufficient_history_sentinel_witness :
    analyze_stock "000000" [] none =
      { ticker := "000000", waveScore := 0, waveStage := "Insufficient Data",
        fundamentalScore := none, supplyDemandScore := none,
        supplyDemandStage := none, finalScore := 0, grade := "분석 불가" } :=
  insufficient_history_sentinel "000000" [] none (by norm_num)

/-- C2: with at least 20 bars the final score is exactly
`waveScore*0.6 + fundamentalScore*1.0 + supplyDemandScore*0.2` (the 0-20
fundamental score at full weight), and the grade follows the
85/75/65/55/45 thresholds on that final score. -/
theorem final_score_formula_and_grades (t : String) (h : List PriceBar)
    (flow : Option (ℚ × String)) (hlen : 20 ≤ h.length) :
    (analyze_stock t h flow).finalScore =
        (analyze_stock t h flow).waveScore * (6/10) +
        (analyze_stock t h flow).fundamentalScore.getD 0 * 1 +
        (analyze_stock t h flow).supplyDemandScore.getD 0 * (2/10) ∧
      (85 ≤ (analyze_stock t h flow).finalScore →
        (analyze_stock t h flow).grade = "S급 (즉시 매수)") ∧
      (75 ≤ (analyze_stock t h flow).finalScore →
        (analyze_stock t h flow).finalScore < 85 →
        (analyze_stock t h flow).grade = "A급 (적극 매수)") ∧
      (65 ≤ (analyze_stock t h flow).finalScore →
        (analyze_stock t h flow).finalScore < 75 →
        (analyze_stock t h flow).grade = "B급 (매수 고려)") ∧
      (55 ≤ (analyze_stock t h flow).finalScore →
        (analyze_stock t h flow).finalScore < 65 →
        (analyze_stock t h flow).grade = "C급 (중립)") ∧
      (45 ≤ (analyze_stock t h flow).finalScore →
        (analyze_stock t h flow).finalScore < 55 →
        (analyze_stock t h flow).grade = "D급 (매도 고려)") ∧
      ((analyze_stock t h flow).finalScore < 45 →
        (analyze_stock t h flow).grade = "F급 (회피)") := by
  have hn : ¬ h.length < 20 := not_lt.mpr hlen
  have hres : analyze_stock t h flow =
      { ticker := t,
        waveScore := (classify_wave_stage (latest_row h)).1,
        waveStage := (classify_wave_stage (latest_row h)).2,
        fundamentalScore := some (calculate_fundamental_score (latest_row h)),
        supplyDemandScore := some (flow.getD (0, "N/A")).1,
        supplyDemandStage := some (flow.getD (0, "N/A")).2,
        finalScore := (classify_wave_stage (latest_row h)).1 * (6/10) +
          calculate_fundamental_score (latest_row h) * 1 +
          (flow.getD (0, "N/A")).1 * (2/10),
        grade := investment_grade
          ((classify_wave_stage (latest_row h)).1 * (6/10) +
            calculate_fundamental_score (latest_row h) * 1 +
            (flow.getD (0, "N/A")).1 * (2/10)) } := by
    unfold analyze_stock
    rw [if_neg hn]
  rw [hres]
  dsimp only
  simp only [Option.getD_some]
  obtain ⟨g1, g2, g3, g4, g5, g6⟩ :=
    investment_grade_spec
      ((classify_wave_stage (latest_row h)).1 * (6/10) +
        calculate_fundamental_score (latest_row h) * 1 +
        (flow.getD (0, "N/A")).1 * (2/10))
  exact ⟨trivial, g1, g2, g3, g4, g5, g6⟩

/-- A flat 20-bar history used by the aggregation witnesses. -/
def flatBar : PriceBar :=
  { openPrice := 100, high := 100, low := 100, close := 100, volume := 10 }

/-- 20 identical bars (enough history for full analysis). -/
def sampleHistory : List PriceBar := List.replicate 20 flatBar

/-- Witness for C2 at a concrete 20-bar history. -/
theorem final_score_formula_witness :
    (analyze_stock "005930" sampleHistory none).finalScore =
      (analyze_stock "005930" sampleHistory none).waveScore * (6/10) +
      (analyze_stock "005930" sampleHistory none).fundamentalScore.getD 0 * 1 +
      (analyze_stock "005930" sampleHistory none).supplyDemandScore.getD 0 * (2/10) :=
  (final_score_formula_and_grades "005930" sampleHistory none
    (by simp [sampleHistory])).1

/-- C4 (amended): the ranked batch output is sorted in descending order of
final score and is a permutation of the per-instrument results taken in
input iteration order.  Tie order is NOT input order (see
`batch_tie_reversed`): pandas reverses an ascending argsort, so the claim's
stable-tie clause fails. -/
theorem batch_sorted_desc
    (univ : List (String × List PriceBar × Option (ℚ × String))) :
    List.Sorted (fun a b : StockResult => b.finalScore ≤ a.finalScore)
        (analyze_all_stocks univ) ∧
      (analyze_all_stocks univ).Perm
        (univ.map (fun u => analyze_stock u.1 u.2.1 u.2.2)) := by
  constructor
  · have hs : List.Sorted byScoreAsc
        (List.insertionSort byScoreAsc
          (univ.map (fun u => analyze_stock u.1 u.2.1 u.2.2))) :=
      List.sorted_insertionSort byScoreAsc _
    unfold analyze_all_stocks
    exact List.pairwise_reverse.mpr (hs.imp (fun hab => hab))
  · exact (List.reverse_perm _).trans (List.perm_insertionSort byScoreAsc _)

/-- Two instruments, in input order A then B, that tie at final score 0. -/
def tieUniverse : List (String × List PriceBar × Option (ℚ × String)) :=
  [("A", [], none), ("B", [], none)]

/-- Counterexample to C4 as stated: A and B tie at final score 0, yet the
batch output lists B before A — the reverse of input iteration order, not
a stable tie-break. -/
theorem batch_tie_reversed :
    (analyze_all_stocks tieUniverse).map (fun r => r.ticker) = ["B", "A"] ∧
      (analyze_all_stocks tieUniverse).map (fun r => r.finalScore) = [0, 0] := by
  constructor <;> rfl

/-!
## Investor net-flow metrics and supply-demand score
(`all_institutional_trend_data.py`, `calculate_trend_metrics` lines
143-218 and `calculate_supply_demand_score` lines 221-274)
-/

/-- One parsed daily investor-flow row; `none` models a `NaN` net value
(`fillna(0)` turns it into 0 for every aggregate). -/
structure FlowRow where
  institutional : Option ℚ
  foreignNet : Option ℚ
  deriving Repr, DecidableEq

/-- `series.tail(k)`: the last `min k n` elements. -/
def takeLast (k : ℕ) (l : List ℚ) : List ℚ := l.drop (l.length - k)

theorem takeLast_length (k : ℕ) (l : List ℚ) :
    (takeLast k l).length = min k l.length := by
  unfold takeLast
  rw [List.length_drop]
  omega

/-- Per-class block of trend metrics (`inst_*` / `frgn_*` keys). -/
structure ClassMetrics where
  sum5 : ℚ
  sum10 : ℚ
  sum20 : ℚ
  consecutiveBuy : ℕ
  buyRatio : ℚ
  trendSlope : ℚ
  deriving Repr, DecidableEq

/-- OLS slope of `y` against the index 0..n-1
(`np.polyfit(x, y, 1)[0]`, ordinary least squares). -/
def olsSlope (y : List ℚ) : ℚ :=
  let n : ℚ := y.length
  let xs : List ℚ := (List.range y.length).map (fun j => (j : ℚ))
  (n * ((xs.zip y).map (fun p => p.1 * p.2)).sum - xs.sum * y.sum) /
    (n * (xs.map (fun x => x * x)).sum - xs.sum * xs.sum)

/-- Consecutive positive-day streak: scan the last 10 days from most
recent backward, stopping at the first non-positive day. -/
def consecutiveBuyCount (s : List ℚ) : ℕ :=
  ((takeLast 10 s).reverse.takeWhile (fun v => decide (0 < v))).length

/-- `(recent_20 > 0).sum() / len(recent_20) if len(recent_20) > 0 else 0`
with `recent_20 = series.tail(20)`: the divisor is the window LENGTH
(`min 20 n`), not the constant 20. -/
def buyRatioOf (s : List ℚ) : ℚ :=
  let recent := takeLast 20 s
  if recent.length = 0 then 0
  else (recent.countP (fun v => decide (0 < v)) : ℚ) / (recent.length : ℚ)

/-- One class block.  Under the caller's ≥5-row guard the slope guard
(`len(series) >= 5 and len(x) > 1`) always holds; when it does not, the
dict key is absent and reads as the default 0 downstream, modelled by 0. -/
def classMetricsOf (s : List ℚ) : ClassMetrics :=
  { sum5 := (takeLast 5 s).sum
    sum10 := (takeLast 10 s).sum
    sum20 := (takeLast 20 s).sum
    consecutiveBuy := consecutiveBuyCount s
    buyRatio := buyRatioOf s
    trendSlope :=
      if 5 ≤ s.length ∧ 1 < (takeLast 20 s).length
      then olsSlope (takeLast 20 s) else 0 }

/-- Both class blocks of the metrics dict. -/
structure SupplyDemandMetrics where
  inst : ClassMetrics
  frgn : ClassMetrics
  deriving Repr, DecidableEq

/-- The institutional net series after `fillna(0)`. -/
def instSeries (rows : List FlowRow) : List ℚ :=
  rows.map (fun r => r.institutional.getD 0)

/-- The foreign net series after `fillna(0)`. -/
def frgnSeries (rows : List FlowRow) : List ℚ :=
  rows.map (fun r => r.foreignNet.getD 0)

/-- `calculate_trend_metrics`: the empty dict (`none`) when fewer than 5
rows exist; otherwise both class blocks over the date-sorted rows. -/
def calculate_trend_metrics (rows : List FlowRow) :
    Option SupplyDemandMetrics :=
  if rows.length < 5 then none
  else some { inst := classMetricsOf (instSeries rows),
              frgn := classMetricsOf (frgnSeries rows) }

/-- `calculate_supply_demand_score`: baseline 50, the eight additive
bonuses and two deductions read through `.get(key, 0)`, clamp to
`[0, 100]`, then the five-way stage label.  `none` models the empty
metrics dict (`if not metrics`). -/
def calculate_supply_demand_score (m : Option SupplyDemandMetrics) :
    ℤ × String :=
  match m with
  | none => (0, "Unknown")
  | some m =>
    let score : ℤ := 50
      + (if 0 < m.inst.sum20 then 10 else 0)
      + (if 3 ≤ m.inst.consecutiveBuy then 10 else 0)
      + (if (6 : ℚ)/10 ≤ m.inst.buyRatio then 5 else 0)
      + (if 0 < m.inst.trendSlope then 5 else 0)
      + (if 0 < m.frgn.sum20 then 10 else 0)
      + (if 3 ≤ m.frgn.consecutiveBuy then 10 else 0)
      + (if (6 : ℚ)/10 ≤ m.frgn.buyRatio then 5 else 0)
      + (if 0 < m.frgn.trendSlope then 5 else 0)
      - (if m.inst.sum20 < 0 then 10 else 0)
      - (if m.frgn.sum20 < 0 then 10 else 0)
    let score := max 0 (min 100 score)
    (score,
      if 80 ≤ score then "Strong Accumulation"
      else if 65 ≤ score then "Accumulation"
      else if 50 ≤ score then "Neutral"
      else if 35 ≤ score then "Distribution"
      else "Strong Distribution")

theorem instSeries_length (rows : List FlowRow) :
    (instSeries rows).length = rows.length := List.length_map _ _

/-- C5 (amended): with at least 5 valid rows the institutional buy-day
ratio equals the positive-day count of the trailing-20-day window divided
by the WINDOW LENGTH `min 20 n` — which coincides with the claim's
constant divisor 20 exactly when the input has at least 20 rows. -/
theorem buy_ratio_denominator (rows : List FlowRow)
    (h5 : 5 ≤ rows.length) :
    ∃ m, calculate_trend_metrics rows = some m ∧
      m.inst.buyRatio =
        ((takeLast 20 (instSeries rows)).countP (fun v => decide (0 < v)) : ℚ) /
          ((min 20 rows.length : ℕ) : ℚ) ∧
      (20 ≤ rows.length →
        m.inst.buyRatio =
          ((takeLast 20 (instSeries rows)).countP (fun v => decide (0 < v)) : ℚ) / 20) := by
  have hlen : (takeLast 20 (instSeries rows)).length = min 20 rows.length := by
    rw [takeLast_length, instSeries_length]
  have hne : ¬ (takeLast 20 (instSeries rows)).length = 0 := by omega
  have hratio : (classMetricsOf (instSeries rows)).buyRatio =
      ((takeLast 20 (instSeries rows)).countP (fun v => decide (0 < v)) : ℚ) /
        ((min 20 rows.length : ℕ) : ℚ) := by
    show buyRatioOf (instSeries rows) = _
    unfold buyRatioOf
    rw [if_neg hne, hlen]
  refine ⟨{ inst := classMetricsOf (instSeries rows),
            frgn := classMetricsOf (frgnSeries rows) }, ?_, hratio, ?_⟩
  · unfold calculate_trend_metrics
    rw [if_neg (by omega)]
  · intro h20
    rw [hratio, min_eq_left h20]
    norm_num

/-- Five all-positive institutional flow rows. -/
def flowRows5 : List FlowRow :=
  [{ institutional := some 1, foreignNet := some 0 },
   { institutional := some 1, foreignNet := some 0 },
   { institutional := some 1, foreignNet := some 0 },
   { institutional := some 1, foreignNet := some 0 },
   { institutional := some 1, foreignNet := some 0 }]

/-- Witness for C5 (amended) at the five-row input. -/
theorem buy_ratio_denominator_witness :
    ∃ m, calculate_trend_metrics flowRows5 = some m ∧
      m.inst.buyRatio =
        ((takeLast 20 (instSeries flowRows5)).countP (fun v => decide (0 < v)) : ℚ) /
          ((min 20 flowRows5.length : ℕ) : ℚ) ∧
      (20 ≤ flowRows5.length →
        m.inst.buyRatio =
          ((takeLast 20 (instSeries flowRows5)).countP (fun v => decide (0 < v)) : ℚ) / 20) :=
  buy_ratio_denominator flowRows5 (by norm_num [flowRows5])

/-- Counterexample to C5 as stated: on the five-row all-positive input the
institutional buy-day ratio is 5/5 = 1, not the claimed 5/20. -/
theorem buy_ratio_counterexample :
    (calculate_trend_metrics flowRows5).map (fun m => m.inst.buyRatio) =
        some 1 ∧
      (1 : ℚ) ≠ 5/20 := by
  constructor
  · norm_num [calculate_trend_metrics, flowRows5, classMetricsOf, buyRatioOf,
      instSeries, frgnSeries, takeLast, consecutiveBuyCount, olsSlope]
  · norm_num

/-- C7: metrics with institutional 20-day sum +500, streak 4, buy ratio
0.7, positive slope, foreign 20-day sum -300 and no other foreign bonus
score exactly 50+10+10+5+5-10 = 70, stage "Accumulation". -/
theorem flow_score_scenario (m : SupplyDemandMetrics)
    (h1 : m.inst.sum20 = 500) (h2 : m.inst.consecutiveBuy = 4)
    (h3 : m.inst.buyRatio = 7/10) (h4 : 0 < m.inst.trendSlope)
    (h5 : m.frgn.sum20 = -300) (h6 : m.frgn.consecutiveBuy < 3)
    (h7 : m.frgn.buyRatio < 6/10) (h8 : m.frgn.trendSlope ≤ 0) :
    calculate_supply_demand_score (some m) = (70, "Accumulation") := by
  have e1 : (if 0 < m.inst.sum20 then (10 : ℤ) else 0) = 10 :=
    if_pos (by rw [h1]; norm_num)
  have e2 : (if 3 ≤ m.inst.consecutiveBuy then (10 : ℤ) else 0) = 10 :=
    if_pos (by omega)
  have e3 : (if (6 : ℚ)/10 ≤ m.inst.buyRatio then (5 : ℤ) else 0) = 5 :=
    if_pos (by rw [h3]; norm_num)
  have e4 : (if 0 < m.inst.trendSlope then (5 : ℤ) else 0) = 5 := if_pos h4
  have e5 : (if 0 < m.frgn.sum20 then (10 : ℤ) else 0) = 0 :=
    if_neg (by rw [h5]; norm_num)
  have e6 : (if 3 ≤ m.frgn.consecutiveBuy then (10 : ℤ) else 0) = 0 :=
    if_neg (by omega)
  have e7 : (if (6 : ℚ)/10 ≤ m.frgn.buyRatio then (5 : ℤ) else 0) = 0 :=
    if_neg (not_le.mpr h7)
  have e8 : (if 0 < m.frgn.trendSlope then (5 : ℤ) else 0) = 0 :=
    if_neg (not_lt.mpr h8)
  have e9 : (if m.inst.sum20 < 0 then (10 : ℤ) else 0) = 0 :=
    if_neg (by rw [h1]; norm_num)
  have e10 : (if m.frgn.sum20 < 0 then (10 : ℤ) else 0) = 10 :=
    if_pos (by rw [h5]; norm_num)
  simp only [calculate_supply_demand_score, e1, e2, e3, e4, e5, e6, e7, e8,
    e9, e10]
  norm_num

/-- The concrete metrics of the C7 scenario. -/
def scenarioMetrics : SupplyDemandMetrics :=
  { inst := { sum5 := 100, sum10 := 300, sum20 := 500, consecutiveBuy := 4,
              buyRatio := 7/10, trendSlope := 1 },
    frgn := { sum5 := -100, sum10 := -200, sum20 := -300, consecutiveBuy := 0,
              buyRatio := 2/10, trendSlope := -1 } }

/-- Witness for C7 at the concrete scenario metrics. -/
theorem flow_score_scenario_witness :
    calculate_supply_demand_score (some scenarioMetrics) =
      (70, "Accumulation") :=
  flow_score_scenario scenarioMetrics (by norm_num [scenarioMetrics])
    (by norm_num [scenarioMetrics]) (by norm_num [scenarioMetrics])
    (by norm_num [scenarioMetrics]) (by norm_num [scenarioMetrics])
    (by norm_num [scenarioMetrics]) (by norm_num [scenarioMetrics])
    (by norm_num [scenarioMetrics])

/-- An additive bonus/deduction term of the supply-demand score is between
0 and its nominal value. -/
theorem ite_bound (c : Prop) [Decidable c] (k : ℤ) (hk : 0 ≤ k) :
    0 ≤ (if c then k else 0) ∧ (if c then k else 0) ≤ k := by
  split_ifs <;> omega

/-- C10: for every non-empty metrics dict the clamped supply-demand score
lies in `[30, 100]` (deductions total at most 20 below the baseline 50,
bonuses are non-negative), so clamped scores strictly between 0 and 30 are
unreachable; the score 0 arises only from the empty dict. -/
theorem flow_score_bounds (m : SupplyDemandMetrics) :
    (30 ≤ (calculate_supply_demand_score (some m)).1 ∧
        (calculate_supply_demand_score (some m)).1 ≤ 100) ∧
      calculate_supply_demand_score none = (0, "Unknown") := by
  refine ⟨?_, rfl⟩
  have b1 := ite_bound (0 < m.inst.sum20) (10 : ℤ) (by norm_num)
  have b2 := ite_bound (3 ≤ m.inst.consecutiveBuy) (10 : ℤ) (by norm_num)
  have b3 := ite_bound ((6 : ℚ)/10 ≤ m.inst.buyRatio) (5 : ℤ) (by norm_num)
  have b4 := ite_bound (0 < m.inst.trendSlope) (5 : ℤ) (by norm_num)
  have b5 := ite_bound (0 < m.frgn.sum20) (10 : ℤ) (by norm_num)
  have b6 := ite_bound (3 ≤ m.frgn.consecutiveBuy) (10 : ℤ) (by norm_num)
  have b7 := ite_bound ((6 : ℚ)/10 ≤ m.frgn.buyRatio) (5 : ℤ) (by norm_num)
  have b8 := ite_bound (0 < m.frgn.trendSlope) (5 : ℤ) (by norm_num)
  have b9 := ite_bound (m.inst.sum20 < 0) (10 : ℤ) (by norm_num)
  have b10 := ite_bound (m.frgn.sum20 < 0) (10 : ℤ) (by norm_num)
  simp only [calculate_supply_demand_score]
  constructor
  · exact le_max_of_le_right (le_min (by norm_num)
      (by linarith [b1.1, b2.1, b3.1, b4.1, b5.1, b6.1, b7.1, b8.1,
        b9.2, b10.2]))
  · exact max_le (by norm_num) (min_le_left _ _)
